import Mathlib

/-!
Verification of the notebook `object_detection_YOLOv5.ipynb`.

The notebook's own logic (path checks, color conversion, directory
filtering, output naming, printed report) is embedded as pure Lean
functions over an explicit environment.  Side effects (prints, the
detection-capability call, the on-screen figure, the file write) are
recorded as an event trace, in the order the Python statements execute.
The detection capability (ultralytics `YOLO`) is opaque: it is a field
of the environment, a function from pixel buffer and threshold to a
list of result sets.
-/

/-- A pixel is one three-channel byte triple (channel order is the point
of the `cv2.cvtColor` calls, so it is kept explicit). -/
abbrev Pixel := Nat × Nat × Nat

/-- A raw pixel buffer, as loaded by `cv2.imread`. -/
abbrev Image := List Pixel

/-- `cv2.cvtColor(img, cv2.COLOR_BGR2RGB)`: swap the first and third
channel of every pixel. -/
def cvtColor_BGR2RGB (img : Image) : Image :=
  img.map fun p => (p.2.2, p.2.1, p.1)

/-- `cv2.cvtColor(img, cv2.COLOR_RGB2BGR)`: swap the first and third
channel of every pixel (the same channel swap as `COLOR_BGR2RGB`). -/
def cvtColor_RGB2BGR (img : Image) : Image :=
  img.map fun p => (p.2.2, p.2.1, p.1)

/-- One detected box as the notebook reads it: `box.cls[0]` (class
index) and `box.conf[0]` (confidence score, modelled as a rational). -/
structure Box where
  cls : Nat
  conf : Rat
deriving DecidableEq

/-- One result set `r` of the list returned by `model(image, conf=...)`:
its boxes, and the annotated frame that `r.plot()` renders (opaque data
produced by the capability, in BGR order). -/
structure DetResult where
  boxes : List Box
  plotted : Image
deriving DecidableEq

/-- The detection capability: the inference call (pixel buffer and
confidence threshold to result sets) and the class-index-to-label
lookup `model.names`. -/
structure Model where
  infer : Image → Rat → List DetResult
  names : Nat → String

/-- The ambient environment of a run: the filesystem predicate used by
`os.path.exists`, the image loader `cv2.imread`, the directory listing
`os.listdir`, and the loaded model handle. -/
structure Env where
  pathExists : String → Bool
  imread : String → Image
  listdir : String → List String
  model : Model

/-- Observable effects of the notebook code, in execution order. -/
inductive Event where
  /-- a `print(...)` of the given text -/
  | print (s : String)
  /-- the inference call `model(image, conf=conf_threshold)` -/
  | infer (conf : Rat) (img : Image)
  /-- the on-screen figure (`plt.show()`) -/
  | display
  /-- `cv2.imwrite(path, img)` -/
  | imwrite (path : String) (img : Image)
  /-- an uncaught exception terminating the call (e.g. `results[0]`
  on an empty result list) -/
  | crash
deriving DecidableEq

/-- The decimal digit `n` (for `n < 10`) as a character. -/
def digitChar (n : Nat) : Char :=
  Char.ofNat (48 + n)

/-- Decimal digits of `n`, accumulated onto `acc`; the first argument
is fuel (structural recursion, so the kernel can evaluate it). -/
def natDigits : Nat → Nat → List Char → List Char
  | 0, _, acc => acc
  | fuel + 1, n, acc =>
    if n < 10 then digitChar n :: acc
    else natDigits fuel (n / 10) (digitChar (n % 10) :: acc)

/-- Decimal rendering of a natural number (Python's `str`/`len`
interpolation). -/
def natToStr (n : Nat) : String :=
  ⟨natDigits (n + 1) n []⟩

/-- Python's `:.2f` rounds to the nearest hundredth, ties to even:
the round-half-even of `100 * q`, computed on the reduced fraction. -/
def roundHalfEven100 (q : Rat) : Int :=
  let a := 100 * q.num
  let d : Int := (q.den : Int)
  let fl := a.fdiv d
  let r := a.fmod d
  if 2 * r < d then fl
  else if d < 2 * r then fl + 1
  else if fl % 2 = 0 then fl else fl + 1

/-- Two-digit zero-padded rendering of a value below 100. -/
def pad2 (k : Nat) : String :=
  if k < 10 then "0" ++ natToStr k else natToStr k

/-- The f-string conversion `{x:.2f}`: fixed-point with two digits
after the decimal point. -/
def fmt2 (q : Rat) : String :=
  let n := roundHalfEven100 q
  let sgn := if n < 0 then "-" else ""
  let m := n.natAbs
  sgn ++ natToStr (m / 100) ++ "." ++ pad2 (m % 100)

/-- `os.path.basename`: the portion of the path after the last slash. -/
def basename (p : String) : String :=
  ⟨(p.data.reverse.takeWhile fun c => c ≠ '/').reverse⟩

/-- `os.path.join` for two components (POSIX rules, as the notebook
uses it). -/
def joinPath (a b : String) : String :=
  if b.data.head? = some '/' then b
  else if a = "" then b
  else if a.data.getLast? = some '/' then a ++ b
  else a ++ "/" ++ b

/-- The error message printed by `process_image` for a missing file. -/
def notFoundMsg (image_path : String) : String :=
  "Error: Image not found at " ++ image_path

/-- `os.path.join('output', os.path.basename(image_path))`. -/
def output_path (image_path : String) : String :=
  joinPath "output" (basename image_path)

/-- The detection line `f"\x7bclass_name\x7d: \x7bconf:.2f\x7d"` for one box. -/
def detectionLine (M : Model) (b : Box) : String :=
  M.names b.cls ++ ": " ++ fmt2 b.conf

/-- The notebook's `process_image(image_path, conf_threshold=0.25)`,
as the trace of its effects.  A missing path prints the error and
returns.  Otherwise the image is loaded, converted BGR to RGB, and
submitted to the capability; `results[0].plot()` raises on an empty
result list (recorded as `crash`); otherwise the figure is shown, the
detection report is printed over every box of every result set, and
the annotated frame of the first result set is converted RGB to BGR
and written under `output/` with the input's base name. -/
def process_image (env : Env) (image_path : String) (conf_threshold : Rat) :
    List Event :=
  if env.pathExists image_path = false then
    [Event.print (notFoundMsg image_path)]
  else
    let image := cvtColor_BGR2RGB (env.imread image_path)
    match env.model.infer image conf_threshold with
    | [] =>
      [Event.infer conf_threshold image, Event.crash]
    | r0 :: rs =>
      let result_plot := cvtColor_BGR2RGB r0.plotted
      Event.infer conf_threshold image ::
      Event.display ::
      Event.print "\nDetections:" ::
      ((r0 :: rs).flatMap fun r =>
        r.boxes.map fun b => Event.print (detectionLine env.model b)) ++
      [Event.imwrite (output_path image_path) (cvtColor_RGB2BGR result_plot),
       Event.print ("\nSaved result to: " ++ output_path image_path)]

/-- The tuple `image_extensions = ('.jpg', '.jpeg', '.png', '.bmp')`. -/
def image_extensions : List String := [".jpg", ".jpeg", ".png", ".bmp"]

/-- ASCII lower-casing of one character (what Python's `str.lower`
does on the ASCII file names at hand). -/
def lowerChar (c : Char) : Char :=
  if 'A' ≤ c ∧ c ≤ 'Z' then Char.ofNat (c.toNat + 32) else c

/-- Python's `f.lower()` on ASCII strings. -/
def pyLower (s : String) : String :=
  ⟨s.data.map lowerChar⟩

/-- The comprehension filter `f.lower().endswith(image_extensions)`:
the lower-cased name ends with one of the four extensions. -/
def isImageFile (f : String) : Bool :=
  image_extensions.any fun ext => ext.data.isSuffixOf (pyLower f).data

/-- The list `image_files`: directory entries kept by the filter. -/
def selectedImages (listing : List String) : List String :=
  listing.filter isImageFile

/-- The notebook's `batch_process_directory(directory='images',
conf_threshold=0.25)`, as the trace of its effects: filter the listing,
report and stop when nothing matches, otherwise report the count and
process each kept entry in listing order, printing its name first. -/
def batch_process_directory (env : Env) (directory : String)
    (conf_threshold : Rat) : List Event :=
  let image_files := selectedImages (env.listdir directory)
  if image_files.isEmpty then
    [Event.print ("No images found in " ++ directory)]
  else
    Event.print ("Found " ++ natToStr image_files.length ++ " images") ::
    image_files.flatMap fun image_file =>
      Event.print ("\nProcessing: " ++ image_file) ::
      process_image env (joinPath directory image_file) conf_threshold

/-- `WEIGHTS_PATH = 'weights/yolov5s.pt'`. -/
def WEIGHTS_PATH : String := "weights/yolov5s.pt"

/-- Observable effects of the model-loading cell. -/
inductive SetupEvent where
  /-- a `print(...)` of the given text -/
  | print (s : String)
  /-- the constructor call `YOLO(path)` -/
  | loadModel (path : String)
deriving DecidableEq

/-- The notebook's model-loading cell, as the trace of its effects:
the existence check on `WEIGHTS_PATH` chooses which messages to print,
and then `model = YOLO(WEIGHTS_PATH)` and the device report run
unconditionally (the load is outside the `if`/`else`). -/
def weights_cell (pathExists : String → Bool) (cuda_available : Bool) :
    List SetupEvent :=
  (if pathExists WEIGHTS_PATH = false then
    [SetupEvent.print "Error: YOLOv5 weights file not found!",
     SetupEvent.print
       "Please download yolov5s.pt and place it in the 'weights' directory"]
  else
    [SetupEvent.print "YOLOv5 weights found successfully!"]) ++
  [SetupEvent.loadModel WEIGHTS_PATH,
   SetupEvent.print
     ("Using device: " ++ if cuda_available then "cuda" else "cpu")]

/-- A detection capability returning no results and empty labels. -/
def emptyModel : Model where
  infer := fun _ _ => []
  names := fun _ => ""

/-- An environment whose filesystem is empty. -/
def noFileEnv : Env where
  pathExists := fun _ => false
  imread := fun _ => []
  listdir := fun _ => []
  model := emptyModel

/-- A capability that always reports one result set with a single box:
class 16 at confidence 0.87, with class 16 labelled "dog". -/
def dogModel : Model where
  infer := fun _ _ => [{ boxes := [{ cls := 16, conf := mkRat 87 100 }],
                         plotted := [(1, 2, 3)] }]
  names := fun n => if n = 16 then "dog" else "object"

/-- An environment where every path exists and detection uses
`dogModel`. -/
def dogEnv : Env where
  pathExists := fun _ => true
  imread := fun _ => [(10, 20, 30)]
  listdir := fun _ => ["test_1.jpg"]
  model := dogModel

/-- An environment where only `images/b.png` exists on disk, whose
directory listing mixes image and non-image names, and whose detection
uses `dogModel`. -/
def mixedEnv : Env where
  pathExists := fun p => p == "images/b.png"
  imread := fun _ => [(10, 20, 30)]
  listdir := fun _ => ["a.jpg", "b.png", "c.txt"]
  model := dogModel

/-- A capability that always reports two result sets, the second with
a box the first does not have. -/
def twoResModel : Model where
  infer := fun _ _ =>
    [{ boxes := [{ cls := 16, conf := mkRat 87 100 }], plotted := [(1, 1, 1)] },
     { boxes := [{ cls := 0, conf := mkRat 1 2 }], plotted := [(9, 9, 9)] }]
  names := fun n => if n = 16 then "dog" else "person"

/-- An environment where every path exists and detection uses
`twoResModel`. -/
def twoResEnv : Env where
  pathExists := fun _ => true
  imread := fun _ => [(5, 6, 7)]
  listdir := fun _ => []
  model := twoResModel


/-- Claim C1: for every path that does not reference an existing file,
`process_image` prints the "not found" error message and then performs
no detection call, no display, and no file write (its trace is exactly
that one message). -/
theorem C1_missing_image_skips_all (env : Env) (p : String) (conf : Rat)
    (h : env.pathExists p = false) :
    process_image env p conf = [Event.print (notFoundMsg p)] ∧
    (∀ c img, Event.infer c img ∉ process_image env p conf) ∧
    Event.display ∉ process_image env p conf ∧
    (∀ q img, Event.imwrite q img ∉ process_image env p conf) := by
  have htr : process_image env p conf = [Event.print (notFoundMsg p)] := by
    simp [process_image, h]
  refine ⟨htr, ?_, ?_, ?_⟩ <;> simp [htr]

/-- Claim C1 witness: a concrete empty filesystem and path. -/
theorem C1_missing_image_skips_all_witness :
    process_image noFileEnv "images/ghost.jpg" (mkRat 1 4) =
      [Event.print (notFoundMsg "images/ghost.jpg")] :=
  (C1_missing_image_skips_all noFileEnv "images/ghost.jpg" (mkRat 1 4)
    (by decide)).1

/-- Claim C3: the batch driver keeps exactly the directory entries
whose lower-cased name ends in one of the four image extensions, and
on the listing `a.JPG`, `b.png`, `c.txt` it keeps exactly `a.JPG` and
`b.png`. -/
theorem C3_extension_filter :
    (∀ listing : List String, ∀ f : String,
       f ∈ selectedImages listing ↔ f ∈ listing ∧ isImageFile f = true) ∧
    (∀ f : String, isImageFile f = true ↔
       ∃ ext ∈ image_extensions, ext.data.isSuffixOf (pyLower f).data = true) ∧
    selectedImages ["a.JPG", "b.png", "c.txt"] = ["a.JPG", "b.png"] := by
  refine ⟨?_, ?_, by decide⟩
  · intro listing f
    simp [selectedImages, List.mem_filter]
  · intro f
    simp [isImageFile, List.any_eq_true]

/-- Claim C6: the BGR-to-RGB conversion applied after load and the
RGB-to-BGR conversion applied before write are mutually inverse on
every pixel buffer. -/
theorem C6_color_roundtrip :
    (∀ img : Image, cvtColor_RGB2BGR (cvtColor_BGR2RGB img) = img) ∧
    (∀ img : Image, cvtColor_BGR2RGB (cvtColor_RGB2BGR img) = img) := by
  constructor <;> intro img <;>
    simp [cvtColor_BGR2RGB, cvtColor_RGB2BGR, List.map_map, Function.comp_def]

/-- Claim C7: for a listing with no matching image extension, the
batch driver prints only the zero-images report and never reaches the
single-image processor (no inference, no display, no write occurs). -/
theorem C7_no_images_report (env : Env) (dir : String) (conf : Rat)
    (h : selectedImages (env.listdir dir) = []) :
    batch_process_directory env dir conf =
      [Event.print ("No images found in " ++ dir)] ∧
    (∀ c img, Event.infer c img ∉ batch_process_directory env dir conf) ∧
    Event.display ∉ batch_process_directory env dir conf ∧
    (∀ q img, Event.imwrite q img ∉ batch_process_directory env dir conf) := by
  have htr : batch_process_directory env dir conf =
      [Event.print ("No images found in " ++ dir)] := by
    simp [batch_process_directory, h]
  refine ⟨htr, ?_, ?_, ?_⟩ <;> simp [htr]

/-- Claim C7 witness: a concrete listing holding no image name. -/
theorem C7_no_images_report_witness :
    batch_process_directory noFileEnv "images" (mkRat 1 4) =
      [Event.print ("No images found in " ++ "images")] :=
  (C7_no_images_report noFileEnv "images" (mkRat 1 4) (by decide)).1

/-- Claim C8: when some entries match, the batch trace is the count
report followed, in listing order, by each kept entry's name report
and then the full trace of the single-image processor on that entry at
the same threshold; hence every kept entry is attempted, whatever the
earlier entries' traces were. -/
theorem C8_sequential_processing (env : Env) (dir : String) (conf : Rat)
    (h : selectedImages (env.listdir dir) ≠ []) :
    batch_process_directory env dir conf =
      Event.print ("Found " ++ natToStr (selectedImages (env.listdir dir)).length
          ++ " images") ::
      ((selectedImages (env.listdir dir)).flatMap fun f =>
        Event.print ("\nProcessing: " ++ f) ::
        process_image env (joinPath dir f) conf) ∧
    (∀ f ∈ selectedImages (env.listdir dir),
      Event.print ("\nProcessing: " ++ f) ∈ batch_process_directory env dir conf) := by
  have htr : batch_process_directory env dir conf =
      Event.print ("Found " ++ natToStr (selectedImages (env.listdir dir)).length
          ++ " images") ::
      ((selectedImages (env.listdir dir)).flatMap fun f =>
        Event.print ("\nProcessing: " ++ f) ::
        process_image env (joinPath dir f) conf) := by
    have : (selectedImages (env.listdir dir)).isEmpty = false := by
      simpa [List.isEmpty_iff] using h
    simp [batch_process_directory, this]
  refine ⟨htr, ?_⟩
  intro f hf
  rw [htr]
  refine List.mem_cons_of_mem _ ?_
  exact List.mem_flatMap.mpr ⟨f, hf, List.mem_cons_self _ _⟩

/-- Claim C8 witness: a listing with two image names, the first of
which does not exist on disk; the second is still attempted. -/
theorem C8_sequential_processing_witness :
    batch_process_directory mixedEnv "images" (mkRat 1 4) =
      Event.print ("Found " ++ natToStr (selectedImages (mixedEnv.listdir "images")).length
          ++ " images") ::
      ((selectedImages (mixedEnv.listdir "images")).flatMap fun f =>
        Event.print ("\nProcessing: " ++ f) ::
        process_image mixedEnv (joinPath "images" f) (mkRat 1 4)) :=
  (C8_sequential_processing mixedEnv "images" (mkRat 1 4) (by decide)).1

/-- Claim C9: for every threshold value, validated or not, the trace
of the single-image processor on an existing file begins with the
inference call carrying exactly that threshold, and every inference
call in the trace carries exactly that threshold. -/
theorem C9_threshold_passthrough (env : Env) (p : String) (conf : Rat)
    (hex : env.pathExists p = true) :
    (process_image env p conf).head? =
      some (Event.infer conf (cvtColor_BGR2RGB (env.imread p))) ∧
    (∀ c img, Event.infer c img ∈ process_image env p conf → c = conf) := by
  unfold process_image
  rw [hex]
  simp only [Bool.true_eq_false, if_false]
  cases env.model.infer (cvtColor_BGR2RGB (env.imread p)) conf with
  | nil =>
    constructor
    · rfl
    · intro c img hc
      simp only [List.mem_cons, List.not_mem_nil, or_false] at hc
      rcases hc with h1 | h1 <;> simp_all
  | cons r0 rs =>
    constructor
    · rfl
    · intro c img hc
      simp only [List.mem_cons, List.mem_append, List.mem_flatMap,
        List.mem_map, List.mem_singleton] at hc
      rcases hc with h1 | h1 | h1 | h1 | h1 | h1 <;> simp_all

/-- Claim C9 witness: a threshold of 5, outside [0,1], is passed
through unchanged. -/
theorem C9_threshold_passthrough_witness :
    (process_image dogEnv "images/test_1.jpg" (5 : Rat)).head? =
      some (Event.infer (5 : Rat) (cvtColor_BGR2RGB (dogEnv.imread "images/test_1.jpg"))) :=
  (C9_threshold_passthrough dogEnv "images/test_1.jpg" (5 : Rat) (by decide)).1

/-- Claim C2 counterexample: with a filesystem on which the weights
file is missing, the model-loading cell still performs the load call
`YOLO(WEIGHTS_PATH)` after printing the error messages, so the
model-loading step is not skipped. -/
theorem C2_counterexample :
    weights_cell (fun _ => false) false =
      [SetupEvent.print "Error: YOLOv5 weights file not found!",
       SetupEvent.print
         "Please download yolov5s.pt and place it in the 'weights' directory",
       SetupEvent.loadModel WEIGHTS_PATH,
       SetupEvent.print "Using device: cpu"] ∧
    SetupEvent.loadModel WEIGHTS_PATH ∈ weights_cell (fun _ => false) false := by
  constructor <;> decide

/-- Claim C2 (amended): when the weights file does not exist at
`WEIGHTS_PATH`, the cell reports it via the two printed messages, but
the model-loading step is nevertheless performed unconditionally with
that same path. -/
theorem C2_missing_weights_reported_but_loaded (pe : String → Bool)
    (cuda : Bool) (h : pe WEIGHTS_PATH = false) :
    SetupEvent.print "Error: YOLOv5 weights file not found!" ∈ weights_cell pe cuda ∧
    SetupEvent.print
      "Please download yolov5s.pt and place it in the 'weights' directory"
      ∈ weights_cell pe cuda ∧
    SetupEvent.loadModel WEIGHTS_PATH ∈ weights_cell pe cuda := by
  simp [weights_cell, h]

/-- Claim C2 witness: the amended behaviour at a concrete filesystem. -/
theorem C2_missing_weights_reported_but_loaded_witness :
    SetupEvent.loadModel WEIGHTS_PATH ∈ weights_cell (fun _ => false) true :=
  (C2_missing_weights_reported_but_loaded (fun _ => false) true (by decide)).2.2

/-- The trace of `process_image` on an existing file whose inference
returns at least one result set, written out in full. -/
theorem process_image_exists_trace (env : Env) (p : String) (conf : Rat)
    (hex : env.pathExists p = true) (r0 : DetResult) (rs : List DetResult)
    (hinf : env.model.infer (cvtColor_BGR2RGB (env.imread p)) conf = r0 :: rs) :
    process_image env p conf =
      Event.infer conf (cvtColor_BGR2RGB (env.imread p)) ::
      Event.display ::
      Event.print "\nDetections:" ::
      ((r0 :: rs).flatMap fun r =>
        r.boxes.map fun b => Event.print (detectionLine env.model b)) ++
      [Event.imwrite (output_path p)
         (cvtColor_RGB2BGR (cvtColor_BGR2RGB r0.plotted)),
       Event.print ("\nSaved result to: " ++ output_path p)] := by
  unfold process_image
  rw [hex]
  simp [hinf]

/-- Claim C4: for every detection the capability returns, the
single-image processor prints one line made of the resolved class
label, a colon and space, and the confidence formatted to two decimal
places; for a box labelled "dog" at confidence 0.87 this line is
exactly "dog: 0.87". -/
theorem C4_detection_line_format (env : Env) (p : String) (conf : Rat)
    (hex : env.pathExists p = true) (r : DetResult) (b : Box)
    (hr : r ∈ env.model.infer (cvtColor_BGR2RGB (env.imread p)) conf)
    (hb : b ∈ r.boxes) :
    Event.print (env.model.names b.cls ++ ": " ++ fmt2 b.conf) ∈
      process_image env p conf ∧
    detectionLine dogModel { cls := 16, conf := mkRat 87 100 } = "dog: 0.87" := by
  refine ⟨?_, by decide⟩
  cases hl : env.model.infer (cvtColor_BGR2RGB (env.imread p)) conf with
  | nil => rw [hl] at hr; simp at hr
  | cons r0 rs =>
    rw [hl] at hr
    rw [process_image_exists_trace env p conf hex r0 rs hl]
    refine List.mem_cons_of_mem _ (List.mem_cons_of_mem _
      (List.mem_cons_of_mem _ (List.mem_append_left _ ?_)))
    exact List.mem_flatMap.mpr ⟨r, hr, List.mem_map_of_mem _ hb⟩

/-- Claim C4 witness: a concrete environment reporting one box of
class 16 ("dog") at confidence 0.87. -/
theorem C4_detection_line_format_witness :
    Event.print "dog: 0.87" ∈
      process_image dogEnv "images/test_1.jpg" (mkRat 1 4) := by
  have h := (C4_detection_line_format dogEnv "images/test_1.jpg" (mkRat 1 4)
    (by decide)
    { boxes := [{ cls := 16, conf := mkRat 87 100 }], plotted := [(1, 2, 3)] }
    { cls := 16, conf := mkRat 87 100 }
    (by decide) (by decide)).1
  have e : dogEnv.model.names 16 ++ ": " ++ fmt2 (mkRat 87 100) = "dog: 0.87" := by
    decide
  rw [e] at h
  exact h

/-- Claim C5: the annotated output is written to the output directory
under the same base file name as the input; for the input
`images/test_1.jpg` the output file is `output/test_1.jpg`. -/
theorem C5_output_naming (env : Env) (p : String) (conf : Rat)
    (hex : env.pathExists p = true) (r0 : DetResult) (rs : List DetResult)
    (hinf : env.model.infer (cvtColor_BGR2RGB (env.imread p)) conf = r0 :: rs) :
    Event.imwrite (output_path p) (cvtColor_RGB2BGR (cvtColor_BGR2RGB r0.plotted))
      ∈ process_image env p conf ∧
    (∀ pth img, Event.imwrite pth img ∈ process_image env p conf →
      pth = output_path p) ∧
    output_path "images/test_1.jpg" = "output/test_1.jpg" := by
  have htr := process_image_exists_trace env p conf hex r0 rs hinf
  refine ⟨?_, ?_, by decide⟩
  · rw [htr]
    refine List.mem_cons_of_mem _ (List.mem_cons_of_mem _
      (List.mem_cons_of_mem _ (List.mem_append_right _ ?_)))
    exact List.mem_cons_self _ _
  · intro pth img h
    rw [htr] at h
    simp only [List.mem_cons, List.mem_append, List.mem_flatMap,
      List.mem_map, List.mem_singleton] at h
    rcases h with h1 | h1 | h1 | h1 | h1 | h1 <;> simp_all

/-- Claim C5 witness: the concrete input `images/test_1.jpg`. -/
theorem C5_output_naming_witness :
    Event.imwrite (output_path "images/test_1.jpg")
        (cvtColor_RGB2BGR (cvtColor_BGR2RGB [(1, 2, 3)]))
      ∈ process_image dogEnv "images/test_1.jpg" (mkRat 1 4) :=
  (C5_output_naming dogEnv "images/test_1.jpg" (mkRat 1 4) (by decide)
    { boxes := [{ cls := 16, conf := mkRat 87 100 }], plotted := [(1, 2, 3)] }
    [] (by decide)).1

/-- Claim C10: the printed report covers every box of every result
set, while the one file write persists the rendering of the first
result set only (every written image is the converted plot of the
first result set, whatever the later sets hold). -/
theorem C10_report_all_persist_first (env : Env) (p : String) (conf : Rat)
    (hex : env.pathExists p = true) (r0 : DetResult) (rs : List DetResult)
    (hinf : env.model.infer (cvtColor_BGR2RGB (env.imread p)) conf = r0 :: rs) :
    (∀ r ∈ r0 :: rs, ∀ b ∈ r.boxes,
      Event.print (detectionLine env.model b) ∈ process_image env p conf) ∧
    Event.imwrite (output_path p) (cvtColor_RGB2BGR (cvtColor_BGR2RGB r0.plotted))
      ∈ process_image env p conf ∧
    (∀ pth img, Event.imwrite pth img ∈ process_image env p conf →
      img = cvtColor_RGB2BGR (cvtColor_BGR2RGB r0.plotted)) := by
  have htr := process_image_exists_trace env p conf hex r0 rs hinf
  refine ⟨?_, ?_, ?_⟩
  · intro r hr b hb
    rw [htr]
    refine List.mem_cons_of_mem _ (List.mem_cons_of_mem _
      (List.mem_cons_of_mem _ (List.mem_append_left _ ?_)))
    exact List.mem_flatMap.mpr ⟨r, hr, List.mem_map_of_mem _ hb⟩
  · rw [htr]
    refine List.mem_cons_of_mem _ (List.mem_cons_of_mem _
      (List.mem_cons_of_mem _ (List.mem_append_right _ ?_)))
    exact List.mem_cons_self _ _
  · intro pth img h
    rw [htr] at h
    simp only [List.mem_cons, List.mem_append, List.mem_flatMap,
      List.mem_map, List.mem_singleton] at h
    rcases h with h1 | h1 | h1 | h1 | h1 | h1 <;> simp_all

/-- Claim C10 witness: a capability returning two result sets; the
box of the second set is printed, and the persisted image is the
converted plot of the first set. -/
theorem C10_report_all_persist_first_witness :
    Event.print (detectionLine twoResModel { cls := 0, conf := mkRat 1 2 }) ∈
      process_image twoResEnv "images/test_1.jpg" (mkRat 1 4) ∧
    Event.imwrite (output_path "images/test_1.jpg")
        (cvtColor_RGB2BGR (cvtColor_BGR2RGB [(1, 1, 1)]))
      ∈ process_image twoResEnv "images/test_1.jpg" (mkRat 1 4) := by
  have h := C10_report_all_persist_first twoResEnv "images/test_1.jpg" (mkRat 1 4)
    (by decide)
    { boxes := [{ cls := 16, conf := mkRat 87 100 }], plotted := [(1, 1, 1)] }
    [{ boxes := [{ cls := 0, conf := mkRat 1 2 }], plotted := [(9, 9, 9)] }]
    (by decide)
  exact ⟨h.1 { boxes := [{ cls := 0, conf := mkRat 1 2 }], plotted := [(9, 9, 9)] }
    (by decide) { cls := 0, conf := mkRat 1 2 } (by decide), h.2.1⟩
